import Mathlib

/-!
Verification of the photon CLI's core logic: the YouTube-URL
classification / identifier-extraction / validation routine
(`src/youtube_url/mod.rs`), the bitrate parser (`src/bitrate/mod.rs`)
and the download orchestration (`src/convert/mod.rs`).

The Rust code is embedded shallowly:

* `url::Url` is modelled by the three projections the code consumes:
  `as_str()` (`full`), `path()` (`path`) and `query()` (`query`).
  A serialized URL never contains whitespace (the `url` crate
  percent-encodes it), but the model places no such restriction.
* The regular expressions are specialized by hand.  `is_match` of the
  anchored patterns `^\/watch`, `^\/shorts`, `^\/embed` is a prefix
  test.  The capture scan of
  `(?:(?:shorts|embed)\/(\S+)\/?)|(?:watch\?v=(\S+))` (`captures_iter`,
  leftmost match, non-overlapping, resuming after each match, greedy
  `\S+`) and the existence check of the broad validation pattern are
  implemented as executable searches below.  `\s` is modelled by the
  ASCII whitespace characters; `.` is any character except newline.
* `Result` is `Except`; a Rust panic (`unwrap` / `expect`) is a
  distinguished outcome of the orchestration model.
* HTTP exchanges and the filesystem are modelled by an environment
  providing the four endpoint responses (as JSON trees), the bytes
  served at each CDN path, the set of existing local files, and the
  `infer::audio::is_mp3` sniffer (external crate code, kept abstract
  as an environment function).  The orchestrator returns its outcome
  together with the ordered list of effects it performed.
-/

namespace Photon

/-- Model of `url::Url` restricted to the projections the program
uses: `as_str()`, `path()` and `query()`. -/
structure Url where
  full : String
  path : String
  query : Option String
deriving DecidableEq

/-- Rust `YouTubeURLKind` (src/youtube_url/mod.rs). -/
inductive YouTubeURLKind where
  | Short
  | Embed
  | Regular
  | Invalid
deriving DecidableEq

/-- Rust `ErrorKind` (src/error/mod.rs). -/
inductive ErrorKind where
  | InvalidURL
  | InvalidURLType
  | InvalidJSON
  | CNVResponseError
  | ReqwestError
  | SerdeError
  | BoxError
  | Error
deriving DecidableEq

/-- Rust `Error` (src/error/mod.rs). -/
structure Error where
  kind : ErrorKind
  value : String
deriving DecidableEq

/-- Display of a kind (`writeln!` appends a newline). -/
def YouTubeURLKind.display : YouTubeURLKind → String
  | .Short => "Short\n"
  | .Embed => "Embed\n"
  | .Regular => "Regular\n"
  | .Invalid => "Invalid\n"

/-- Name of an error kind as printed by its derived `Debug`. -/
def ErrorKind.debugStr : ErrorKind → String
  | .InvalidURL => "InvalidURL"
  | .InvalidURLType => "InvalidURLType"
  | .InvalidJSON => "InvalidJSON"
  | .CNVResponseError => "CNVResponseError"
  | .ReqwestError => "ReqwestError"
  | .SerdeError => "SerdeError"
  | .BoxError => "BoxError"
  | .Error => "Error"

/-- Derived `Debug` of `Error`, as interpolated by `format!("{e:?}")`
(string-escaping of the value is not reproduced; no claim depends on
the exact text). -/
def Error.debugStr (e : Error) : String :=
  "Error \x7b kind: " ++ e.kind.debugStr ++ ", value: \"" ++ e.value ++ "\" \x7d"

/-- Match a literal at the head of a character list; on success return
the remainder.  This is the building block for the hand-specialized
regular expressions. -/
def matchLit : List Char → List Char → Option (List Char)
  | [], cs => some cs
  | _ :: _, [] => none
  | l :: ls, c :: cs => if c = l then matchLit ls cs else none

/-- Boolean prefix test; `is_match` of an anchored literal pattern. -/
def startsWith (pre cs : List Char) : Bool :=
  (matchLit pre cs).isSome

/-- Pattern constant `PATTERN_EMBED` (`^\/embed`): anchored, so
`is_match` on a path is a prefix test on `/embed`. -/
def PATTERN_EMBED : String := "/embed"

/-- Pattern constant `PATTERN_SHORT` (`^\/shorts`). -/
def PATTERN_SHORT : String := "/shorts"

/-- Pattern constant `PATTERN_REGULAR` (`^\/watch`). -/
def PATTERN_REGULAR : String := "/watch"

/-- Rust `YouTubeURL` (src/youtube_url/mod.rs). -/
structure YouTubeURL where
  url : Url
  type : YouTubeURLKind
  id : String
deriving DecidableEq

/-- The classification performed by `YouTubeURL::get_type`: test the
URL path against the three anchored patterns in source order. -/
def kindOfPath (path : String) : YouTubeURLKind :=
  if startsWith PATTERN_REGULAR.toList path.toList then .Regular
  else if startsWith PATTERN_SHORT.toList path.toList then .Short
  else if startsWith PATTERN_EMBED.toList path.toList then .Embed
  else .Invalid

/-- Rust `YouTubeURL::get_type`: classify `url.path()`; always `Ok`. -/
def YouTubeURL.get_type (url : Url) : Except Error YouTubeURLKind :=
  .ok (kindOfPath url.path)

/-- ASCII whitespace, modelling the regex class `\s` (and `\S` by
negation) on the ASCII strings the `url` crate produces. -/
def isSpace (c : Char) : Bool :=
  c == ' ' || c == '\t' || c == '\n' || c == '\r' || c == '\x0b' || c == '\x0c'

/-- The three literal alternatives of the id-extraction pattern
`(?:(?:shorts|embed)\/(\S+)\/?)|(?:watch\?v=(\S+))`, in source
order. -/
def idLits : List (List Char) :=
  ["shorts/".toList, "embed/".toList, "watch?v=".toList]

/-- Try the three literal alternatives at the current position (the
alternation of the id pattern; at most one can match since the
literals differ in their first character). -/
def firstLitMatch (cs : List Char) : Option (List Char) :=
  match matchLit "shorts/".toList cs with
  | some r => some r
  | none =>
    match matchLit "embed/".toList cs with
    | some r => some r
    | none => matchLit "watch?v=".toList cs

/-- One attempted match of the id pattern at the current position:
a literal alternative followed by a greedy nonempty `\S+` capture
(the optional trailing `\/?` then matches the empty string).  Returns
the capture and the remainder of the input after the match. -/
def matchIdAt (cs : List Char) : Option (List Char × List Char) :=
  match firstLitMatch cs with
  | none => none
  | some rest =>
    let cap := rest.takeWhile fun c => !isSpace c
    if cap.isEmpty then none
    else some (cap, rest.dropWhile fun c => !isSpace c)

/-- The scan performed by `captures_iter`: find successive
non-overlapping leftmost matches, resuming after the end of each
match, and collect the captures.  The fuel argument bounds the
recursion; `fuel = cs.length` is always sufficient because every step
consumes at least one character. -/
def scanIdCaptures : Nat → List Char → List (List Char)
  | 0, _ => []
  | _ + 1, [] => []
  | fuel + 1, c :: cs =>
    match matchIdAt (c :: cs) with
    | some (cap, rest) => cap :: scanIdCaptures fuel rest
    | none => scanIdCaptures fuel cs

/-- All captures of the id pattern over an input, in order. -/
def idCaptures (cs : List Char) : List (List Char) :=
  scanIdCaptures cs.length cs

/-- Rust `YouTubeURL::get_id`: `"invalid"` for the `Invalid` kind;
otherwise the loop over `captures_iter` leaves the capture of the
last match in `youtube_id` (initialized to `""`); always `Ok`. -/
def YouTubeURL.get_id (url : Url) (type : YouTubeURLKind) : Except Error String :=
  match type with
  | .Invalid => .ok "invalid"
  | _ => .ok (String.mk ((idCaptures url.full.toList).getLast?.getD []))

/-- Character class `[a-zA-Z0-9_-]` of the broad validation pattern. -/
def isIdChar (c : Char) : Bool :=
  (97 ≤ c.toNat && c.toNat ≤ 122) || (65 ≤ c.toNat && c.toNat ≤ 90) ||
    (48 ≤ c.toNat && c.toNat ≤ 57) || c == '_' || c == '-'

/-- Character class `.` of the broad validation pattern: any
character except newline. -/
def isDot (c : Char) : Bool :=
  c != '\n'

/-- Tail of the broad validation pattern:
`([a-zA-Z0-9_-]{11})(?:[&?]|$)` — exactly eleven id characters
followed by `&`, `?` or the end of the input. -/
def tailId11 (cs : List Char) : Bool :=
  ((cs.take 11).length == 11) && (cs.take 11).all isIdChar &&
    (match cs.drop 11 with
     | [] => true
     | c :: _ => c == '&' || c == '?')

/-- First alternative inside the `youtube.com/` group of the broad
pattern: `[^\/]+\/.+\/` followed by the id tail.  The existential
split positions are searched exhaustively, which is exactly the
existence semantics of `is_match`. -/
def branchA1 (rest : List Char) : Bool :=
  (List.range (rest.length + 1)).any fun i =>
    decide (1 ≤ i) && (rest.take i).all (fun c => c != '/') &&
      (match rest.drop i with
       | '/' :: r2 =>
         (List.range (r2.length + 1)).any fun j =>
           decide (1 ≤ j) && (r2.take j).all isDot &&
             (match r2.drop j with
              | '/' :: r3 => tailId11 r3
              | _ => false)
       | _ => false)

/-- Second alternative: `(?:v|embed|watch|shorts)\/` followed by the
id tail. -/
def branchA2 (rest : List Char) : Bool :=
  ["v/", "embed/", "watch/", "shorts/"].any fun lit =>
    match matchLit lit.toList rest with
    | some r => tailId11 r
    | none => false

/-- Third alternative: `.*[?&]v=` followed by the id tail. -/
def branchA3 (rest : List Char) : Bool :=
  (List.range (rest.length + 1)).any fun i =>
    (rest.take i).all isDot &&
      (match rest.drop i with
       | c :: r2 =>
         (c == '?' || c == '&') &&
           (match matchLit "v=".toList r2 with
            | some r3 => tailId11 r3
            | none => false)
       | [] => false)

/-- Does the broad validation pattern match starting exactly at the
head of the input? -/
def matchBroadAt (cs : List Char) : Bool :=
  (match matchLit "youtube.com/".toList cs with
   | some rest => branchA1 rest || branchA2 rest || branchA3 rest
   | none => false) ||
  (match matchLit "youtu.be/".toList cs with
   | some rest => tailId11 rest
   | none => false)

/-- Rust `is_match` of the broad validation pattern
`(?:youtube\.com\/(?:[^\/]+\/.+\/|(?:v|embed|watch|shorts)\/|.*[?&]v=)|youtu\.be\/)([a-zA-Z0-9_-]{11})(?:[&?]|$)`
over the whole URL string: a match may start at any position. -/
def broadPatternMatch (s : String) : Bool :=
  (List.range (s.toList.length + 1)).any fun i => matchBroadAt (s.toList.drop i)

/-- Rust `YouTubeURL::validate`: reject with `InvalidURL` when the
URL string fails the broad pattern, then with `InvalidURLType` when
the classified kind is `Invalid`; otherwise `Ok`. -/
def YouTubeURL.validate (y : YouTubeURL) : Except Error Unit :=
  if !broadPatternMatch y.url.full then
    .error ⟨.InvalidURL, "bad url: " ++ y.url.full⟩
  else
    match y.type with
    | .Invalid => .error ⟨.InvalidURLType, "bad type: " ++ y.type.display⟩
    | _ => .ok ()

/-- Rust `YouTubeURL::new`: classify, extract the id, build the
value, then run `validate`; any `validate` failure is re-wrapped as a
fresh error of kind `InvalidURL` whose message interpolates the inner
error's `Debug` form. -/
def YouTubeURL.new (url : Url) : Except Error YouTubeURL :=
  match YouTubeURL.get_type url with
  | .error e => .error e
  | .ok type =>
    match YouTubeURL.get_id url type with
    | .error e => .error e
    | .ok id =>
      let youtube_url : YouTubeURL := ⟨url, type, id⟩
      match youtube_url.validate with
      | .error e => .error ⟨.InvalidURL, "error: " ++ e.debugStr⟩
      | .ok _ => .ok youtube_url

/-- Rust `BitRate` (src/bitrate/mod.rs). -/
inductive BitRate where
  | Kbps320
  | Kbps256
  | Kbps128
  | Kbps96
deriving DecidableEq

/-- Discriminant values of `BitRate` (`#[repr(usize)]`), as assigned
in the source. -/
def BitRate.reprValue : BitRate → Nat
  | .Kbps320 => 0
  | .Kbps256 => 1
  | .Kbps128 => 4
  | .Kbps96 => 5

/-- Rust `FromNumberError<T>` at the numeric instantiations
(`T: Into<u64>`), with the carried value modelled as a natural
number. -/
structure FromNumberError where
  value : Nat
deriving DecidableEq

/-- Rust `<BitRate as FromNumber<T>>::from_number`: dispatch on the
numeric value. -/
def BitRate.from_number (n : Nat) : Except FromNumberError BitRate :=
  if n = 320 then .ok .Kbps320
  else if n = 256 then .ok .Kbps256
  else if n = 128 then .ok .Kbps128
  else if n = 96 then .ok .Kbps96
  else .error ⟨n⟩

/-- A JSON tree, modelling `serde_json::Value` (numbers restricted to
integers; the responses the program inspects carry none that
matter). -/
inductive Json where
  | null
  | bool (b : Bool)
  | num (n : Int)
  | str (s : String)
  | arr (xs : List Json)
  | obj (fields : List (String × Json))

/-- The field lookup `Value::get(key)` on an object. -/
def Json.get (v : Json) (key : String) : Option Json :=
  match v with
  | .obj fields => fields.lookup key
  | _ => none

/-- The coercion `Value::as_bool`. -/
def Json.asBool : Json → Option Bool
  | .bool b => some b
  | _ => none

/-- The coercion of a JSON value to a string field. -/
def Json.asStr : Json → Option String
  | .str s => some s
  | _ => none

/-- The coercion of a JSON value to an integer field. -/
def Json.asInt : Json → Option Int
  | .num n => some n
  | _ => none

/-- Rust `CheckDatabaseVideoData` (serde field names; the Rust
underscore prefixes are only dead-code markers). -/
structure CheckDatabaseVideoData where
  id : Int
  quality : String
  server_path : String
  title : String
  youtube_id : String
deriving DecidableEq

/-- Deserialization of `CheckDatabaseVideoData`: every field must be
present with the right type (serde ignores unknown fields). -/
def parseCheckDatabaseVideoData (v : Json) : Option CheckDatabaseVideoData := do
  let id ← (v.get "id").bind Json.asInt
  let quality ← (v.get "quality").bind Json.asStr
  let server_path ← (v.get "server_path").bind Json.asStr
  let title ← (v.get "title").bind Json.asStr
  let youtube_id ← (v.get "youtube_id").bind Json.asStr
  pure ⟨id, quality, server_path, title, youtube_id⟩

/-- Rust `CheckDatabaseExist`: the video data and the success
flag. -/
structure CheckDatabaseExist where
  data : CheckDatabaseVideoData
  success : Bool
deriving DecidableEq

/-- Deserialization of `CheckDatabaseExist`. -/
def parseCheckDatabaseExist (v : Json) : Option CheckDatabaseExist := do
  let data ← (v.get "data").bind parseCheckDatabaseVideoData
  let success ← (v.get "success").bind Json.asBool
  pure ⟨data, success⟩

/-- Rust `CheckDatabaseNoExist`. -/
structure CheckDatabaseNoExist where
  error : String
  success : Bool
deriving DecidableEq

/-- Deserialization of `CheckDatabaseNoExist`. -/
def parseCheckDatabaseNoExist (v : Json) : Option CheckDatabaseNoExist := do
  let error ← (v.get "error").bind Json.asStr
  let success ← (v.get "success").bind Json.asBool
  pure ⟨error, success⟩

/-- Rust `GetVideoData`. -/
structure GetVideoData where
  success : Bool
  title : String
deriving DecidableEq

/-- Deserialization of `GetVideoData`. -/
def parseGetVideoData (v : Json) : Option GetVideoData := do
  let success ← (v.get "success").bind Json.asBool
  let title ← (v.get "title").bind Json.asStr
  pure ⟨success, title⟩

/-- Rust `GetVideoDataError`. -/
structure GetVideoDataError where
  success : Bool
  error : String
deriving DecidableEq

/-- Deserialization of `GetVideoDataError`. -/
def parseGetVideoDataError (v : Json) : Option GetVideoDataError := do
  let success ← (v.get "success").bind Json.asBool
  let error ← (v.get "error").bind Json.asStr
  pure ⟨success, error⟩

/-- Rust `DownloadVideoData`. -/
structure DownloadVideoData where
  download_link : String
  success : Bool
deriving DecidableEq

/-- Deserialization of `DownloadVideoData`. -/
def parseDownloadVideoData (v : Json) : Option DownloadVideoData := do
  let download_link ← (v.get "download_link").bind Json.asStr
  let success ← (v.get "success").bind Json.asBool
  pure ⟨download_link, success⟩

/-- Rust `DownloadVideoError` (serde name `errorType` for the second
field). -/
structure DownloadVideoError where
  error : String
  errorType : Int
  success : Bool
deriving DecidableEq

/-- Deserialization of `DownloadVideoError`. -/
def parseDownloadVideoError (v : Json) : Option DownloadVideoError := do
  let error ← (v.get "error").bind Json.asStr
  let errorType ← (v.get "errorType").bind Json.asInt
  let success ← (v.get "success").bind Json.asBool
  pure ⟨error, errorType, success⟩

/-- Rust `InsertToDatabaseData`. -/
structure InsertToDatabaseData where
  success : Bool
  message : String
deriving DecidableEq

/-- Deserialization of `InsertToDatabaseData`. -/
def parseInsertToDatabaseData (v : Json) : Option InsertToDatabaseData := do
  let success ← (v.get "success").bind Json.asBool
  let message ← (v.get "message").bind Json.asStr
  pure ⟨success, message⟩

/-- Rust `InsertToDatabaseError`. -/
structure InsertToDatabaseError where
  success : Bool
  error : String
deriving DecidableEq

/-- Deserialization of `InsertToDatabaseError`. -/
def parseInsertToDatabaseError (v : Json) : Option InsertToDatabaseError := do
  let success ← (v.get "success").bind Json.asBool
  let error ← (v.get "error").bind Json.asStr
  pure ⟨success, error⟩

/-- An observable effect of the orchestration: one of the four POST
requests to the cnvmp3 endpoints, the GET against the CDN, or a
write of bytes to the local filesystem. -/
inductive Event where
  | reqCheckDatabase (youtube_id : String) (quality : BitRate)
  | reqGetVideoData (url : String)
  | reqDownloadVideo (url : String) (title : String) (quality : BitRate)
  | reqInsertToDatabase (server_path : String) (title : String)
      (youtube_id : String) (quality : BitRate)
  | reqCdnGet (server_path : String)
  | fsWrite (path : String) (bytes : List Nat)
deriving DecidableEq

/-- Outcome of the orchestration: `Ok(())`, an `Err` carrying its
message, or a Rust panic (`unwrap` / `expect`). -/
inductive DLResult where
  | ok
  | err (msg : String)
  | panicked (msg : String)
deriving DecidableEq

/-- The environment a run of the orchestrator observes: the existing
local files, the JSON bodies answered by the four cnvmp3 endpoints,
the bytes served at each CDN path, and the `infer::audio::is_mp3`
sniffer (external crate code, abstract here).  Network transport and
local file writes are assumed not to fail. -/
structure Env where
  fs : List String
  checkdb_res : Json
  getvd_res : Json
  dv_res : Json
  ins_res : Json
  body : String → List Nat
  is_mp3 : List Nat → Bool

/-- Rust `CNVClient::cdn_download` (src/convert/mod.rs): GET the
bytes at `server_path`; when they sniff as MP3, write them to
`mp3/<youtube_id>.mp3` and succeed, otherwise write nothing and fail
with the fixed message. -/
def cdn_download (env : Env) (server_path : String) (youtube_id : String) :
    DLResult × List Event :=
  let bytes := env.body server_path
  if env.is_mp3 bytes then
    (.ok, [.reqCdnGet server_path,
           .fsWrite ("mp3/" ++ youtube_id ++ ".mp3") bytes])
  else
    (.err "downloaded content is not an mp3 file", [.reqCdnGet server_path])

/-- Rust `download` (src/convert/mod.rs): the full orchestration.
Returns the outcome paired with the ordered list of performed
effects.  The `dest_type` argument is stored in the client and never
used, exactly as in the source. -/
def download (env : Env) (url : Url) (_dest_type : String) (quality : BitRate) :
    DLResult × List Event :=
  match YouTubeURL.new url with
  | .error e =>
    (.panicked ("called Result::unwrap on an Err value: " ++ e.debugStr), [])
  | .ok youtube_url =>
    if ("mp3/" ++ youtube_url.id ++ ".mp3") ∈ env.fs then (.ok, [])
    else
      let ev0 : List Event := [.reqCheckDatabase youtube_url.id quality]
      match (env.checkdb_res.get "success").bind Json.asBool with
      | none =>
        (.err "Unable to reference field `success` in /check_database.php response", ev0)
      | some true =>
        match parseCheckDatabaseExist env.checkdb_res with
        | none => (.panicked "Parsing as CheckDatabaseExist should work", ev0)
        | some checkdb =>
          let pr := cdn_download env checkdb.data.server_path youtube_url.id
          (pr.1, ev0 ++ pr.2)
      | some false =>
        match parseCheckDatabaseNoExist env.checkdb_res with
        | none => (.panicked "Parsing as CheckDatabaseNoExist should work", ev0)
        | some _ =>
          let ev1 := ev0 ++ [Event.reqGetVideoData youtube_url.url.full]
          match (env.getvd_res.get "success").bind Json.asBool with
          | none =>
            (.err "Unable to reference field `success` in /get_video_data.php response", ev1)
          | some false =>
            match parseGetVideoDataError env.getvd_res with
            | none => (.panicked "Parsing as GetVideoDataError should work", ev1)
            | some ge => (.err ("/get_video_data.php failed.. " ++ ge.error), ev1)
          | some true =>
            match parseGetVideoData env.getvd_res with
            | none => (.panicked "Parsing as GetVideoData should work", ev1)
            | some getvd =>
              let title := getvd.title
              let ev2 := ev1 ++ [Event.reqDownloadVideo youtube_url.url.full title quality]
              match (env.dv_res.get "success").bind Json.asBool with
              | none =>
                (.err "Unable to reference field `success` in /download_video.php response", ev2)
              | some false =>
                match parseDownloadVideoError env.dv_res with
                | none => (.panicked "Parsing as DownloadVideoError should work", ev2)
                | some de => (.err ("/download_video.php failed.. " ++ de.error), ev2)
              | some true =>
                match parseDownloadVideoData env.dv_res with
                | none => (.panicked "Parsing as DownloadVideoData should work", ev2)
                | some dv =>
                  let download_link := dv.download_link
                  let ev3 := ev2 ++
                    [Event.reqInsertToDatabase download_link title youtube_url.id quality]
                  match (env.ins_res.get "success").bind Json.asBool with
                  | none =>
                    (.err "Unable to reference field `success` in /insert_to_database.php response", ev3)
                  | some false =>
                    match parseInsertToDatabaseError env.ins_res with
                    | none => (.panicked "Parsing as InsertToDatabaseError should work", ev3)
                    | some ie => (.err ("/insert_to_database.php failed.. " ++ ie.error), ev3)
                  | some true =>
                    match parseInsertToDatabaseData env.ins_res with
                    | none => (.panicked "Parsing as InsertToDatabaseData should work", ev3)
                    | some _ =>
                      let pr := cdn_download env download_link youtube_url.id
                      let r := match pr.1 with
                        | .err m => DLResult.err ("error: " ++ m)
                        | other => other
                      (r, ev3 ++ pr.2)

/-- Decidable form of "the id-extraction pattern matches nowhere in
the string": no suffix of the input admits a match. -/
def decideNoMatch (s : String) : Bool :=
  (List.range (s.toList.length + 1)).all fun i => (matchIdAt (s.toList.drop i)).isNone

/-- Split a character list on a separator (used by the spec-side
query-parameter reading below). -/
def splitOnChar (sep : Char) : List Char → List (List Char)
  | [] => [[]]
  | c :: cs =>
    if c = sep then [] :: splitOnChar sep cs
    else
      match splitOnChar sep cs with
      | [] => [[c]]
      | w :: ws => (c :: w) :: ws

/-- Specification-side definition, for the refinement comparison of
the id extraction only: the value of the `v` query parameter,
reading the URL's query as `&`-separated `key=value` pairs (the first
`=` splits key from value), as the spec's words prescribe. -/
def vQueryParam (u : Url) : Option String :=
  match u.query with
  | none => none
  | some q =>
    ((splitOnChar '&' q.toList).filterMap fun kv =>
      if kv.takeWhile (fun c => c != '=') = "v".toList then
        some (String.mk ((kv.dropWhile fun c => c != '=').drop 1))
      else none).head?

/-! ## Helper lemmas -/

theorem matchLit_eq_some {l cs r : List Char} :
    matchLit l cs = some r ↔ cs = l ++ r := by
  induction l generalizing cs with
  | nil => simp [matchLit, eq_comm]
  | cons x ls ih =>
    cases cs with
    | nil => simp [matchLit]
    | cons c cs' =>
      by_cases h : c = x
      · subst h; simp [matchLit, ih]
      · simp [matchLit, h]

theorem startsWith_iff {pre cs : List Char} :
    startsWith pre cs = true ↔ pre <+: cs := by
  unfold startsWith
  rw [Option.isSome_iff_exists]
  constructor
  · rintro ⟨r, hr⟩
    exact ⟨r, (matchLit_eq_some.mp hr).symm⟩
  · rintro ⟨r, hr⟩
    exact ⟨r, matchLit_eq_some.mpr hr.symm⟩

/-! ## C1: classification of URL paths -/

/-- C1: `YouTubeURL::get_type` classifies a URL as `Regular` exactly
when its path begins with `/watch`, as `Short` exactly when it begins
with `/shorts`, as `Embed` exactly when it begins with `/embed`, and
as `Invalid` in every other case. -/
theorem get_type_classification (u : Url) :
    (YouTubeURL.get_type u = .ok .Regular ↔ "/watch".toList <+: u.path.toList) ∧
    (YouTubeURL.get_type u = .ok .Short ↔ "/shorts".toList <+: u.path.toList) ∧
    (YouTubeURL.get_type u = .ok .Embed ↔ "/embed".toList <+: u.path.toList) ∧
    (YouTubeURL.get_type u = .ok .Invalid ↔
      ¬("/watch".toList <+: u.path.toList ∨ "/shorts".toList <+: u.path.toList ∨
        "/embed".toList <+: u.path.toList)) := by
  have hws : "/watch".toList <+: u.path.toList →
      "/shorts".toList <+: u.path.toList → False := fun a b =>
    (by decide : ¬ ("/watch".toList <+: "/shorts".toList))
      (List.prefix_of_prefix_length_le a b (by decide))
  have hwe : "/watch".toList <+: u.path.toList →
      "/embed".toList <+: u.path.toList → False := fun a b =>
    (by decide : ¬ ("/embed".toList <+: "/watch".toList))
      (List.prefix_of_prefix_length_le b a (by decide))
  have hse : "/shorts".toList <+: u.path.toList →
      "/embed".toList <+: u.path.toList → False := fun a b =>
    (by decide : ¬ ("/embed".toList <+: "/shorts".toList))
      (List.prefix_of_prefix_length_le b a (by decide))
  unfold YouTubeURL.get_type kindOfPath
  by_cases h1 : startsWith PATTERN_REGULAR.toList u.path.toList = true
  · have hwp : "/watch".toList <+: u.path.toList := startsWith_iff.mp h1
    rw [if_pos h1]
    refine ⟨by simpa using hwp, ?_, ?_, ?_⟩
    · simpa using fun hsp => hws hwp hsp
    · simpa using fun hep => hwe hwp hep
    · simpa using fun hna _ => absurd hwp hna
  · have hwn : ¬ ("/watch".toList <+: u.path.toList) := fun hp => h1 (startsWith_iff.mpr hp)
    rw [if_neg h1]
    by_cases h2 : startsWith PATTERN_SHORT.toList u.path.toList = true
    · have hsp : "/shorts".toList <+: u.path.toList := startsWith_iff.mp h2
      rw [if_pos h2]
      refine ⟨by simpa using hwn, by simpa using hsp, ?_, ?_⟩
      · simpa using fun hep => hse hsp hep
      · simpa using fun _ hnb => absurd hsp hnb
    · have hsn : ¬ ("/shorts".toList <+: u.path.toList) := fun hp => h2 (startsWith_iff.mpr hp)
      rw [if_neg h2]
      by_cases h3 : startsWith PATTERN_EMBED.toList u.path.toList = true
      · have hep : "/embed".toList <+: u.path.toList := startsWith_iff.mp h3
        rw [if_pos h3]
        refine ⟨by simpa using hwn, by simpa using hsn, by simpa using hep, ?_⟩
        simpa using fun _ _ => hep
      · have hen : ¬ ("/embed".toList <+: u.path.toList) := fun hp => h3 (startsWith_iff.mpr hp)
        rw [if_neg h3]
        refine ⟨by simpa using hwn, by simpa using hsn, by simpa using hen, ?_⟩
        simp only [Except.ok.injEq, true_iff]
        rintro (h | h | h)
        · exact hwn h
        · exact hsn h
        · exact hen h

/-! ## C8: totality of get_type and get_id -/

/-- C8: `YouTubeURL::get_type` and `YouTubeURL::get_id` are total:
for every URL (and every kind) they return `Ok`; their error branch
is unreachable. -/
theorem get_type_get_id_total (u : Url) (k : YouTubeURLKind) :
    (∃ t, YouTubeURL.get_type u = .ok t) ∧ ∃ s, YouTubeURL.get_id u k = .ok s := by
  refine ⟨⟨kindOfPath u.path, rfl⟩, ?_⟩
  cases k <;> exact ⟨_, rfl⟩

/-! ## C9: BitRate::from_number -/

/-- C9: `BitRate::from_number` maps 320, 256, 128, 96 to the
corresponding variant and every other value to a `FromNumberError`
carrying that value. -/
theorem from_number_cases :
    BitRate.from_number 320 = .ok .Kbps320 ∧
    BitRate.from_number 256 = .ok .Kbps256 ∧
    BitRate.from_number 128 = .ok .Kbps128 ∧
    BitRate.from_number 96 = .ok .Kbps96 ∧
    ∀ n : Nat, n ≠ 320 → n ≠ 256 → n ≠ 128 → n ≠ 96 →
      BitRate.from_number n = .error ⟨n⟩ := by
  refine ⟨rfl, rfl, rfl, rfl, ?_⟩
  intro n h1 h2 h3 h4
  simp [BitRate.from_number, h1, h2, h3, h4]

/-- Witness for C9: 97 is not a supported bitrate and yields the
error carrying 97. -/
theorem from_number_cases_witness :
    BitRate.from_number 97 = .error ⟨97⟩ :=
  from_number_cases.2.2.2.2 97 (by decide) (by decide) (by decide) (by decide)

/-! ## Lemmas about the id-pattern scan -/

theorem firstLitMatch_some {cs r : List Char} (h : firstLitMatch cs = some r) :
    ∃ lit ∈ idLits, cs = lit ++ r := by
  unfold firstLitMatch at h
  cases h1 : matchLit "shorts/".toList cs with
  | none =>
    cases h2 : matchLit "embed/".toList cs with
    | none =>
      rw [h1, h2] at h
      exact ⟨"watch?v=".toList, by simp [idLits], matchLit_eq_some.mp h⟩
    | some r2 =>
      rw [h1, h2] at h
      cases h
      exact ⟨"embed/".toList, by simp [idLits], matchLit_eq_some.mp h2⟩
  | some r1 =>
    rw [h1] at h
    cases h
    exact ⟨"shorts/".toList, by simp [idLits], matchLit_eq_some.mp h1⟩

theorem dropWhile_head_false {p : Char → Bool} :
    ∀ {l d : List Char} {c : Char}, l.dropWhile p = c :: d → p c = false := by
  intro l
  induction l with
  | nil => intro d c h; simp [List.dropWhile] at h
  | cons x xs ih =>
    intro d c h
    by_cases hx : p x
    · rw [List.dropWhile_cons_of_pos hx] at h
      exact ih h
    · rw [List.dropWhile_cons_of_neg hx] at h
      cases h
      exact Bool.not_eq_true _ ▸ eq_false_of_ne_true hx

theorem matchIdAt_some {cs cap rest : List Char}
    (h : matchIdAt cs = some (cap, rest)) :
    ∃ lit ∈ idLits, cs = lit ++ cap ++ rest ∧ cap ≠ [] ∧
      (∀ c ∈ cap, isSpace c = false) ∧
      (rest = [] ∨ ∃ d ds, rest = d :: ds ∧ isSpace d = true) := by
  unfold matchIdAt at h
  cases hf : firstLitMatch cs with
  | none => rw [hf] at h; cases h
  | some r =>
    rw [hf] at h
    simp only at h
    by_cases hemp : (r.takeWhile fun c => !isSpace c).isEmpty
    · rw [if_pos hemp] at h; cases h
    · rw [if_neg hemp] at h
      cases h
      obtain ⟨lit, hlit, hcs⟩ := firstLitMatch_some hf
      refine ⟨lit, hlit, ?_, ?_, ?_, ?_⟩
      · rw [hcs, List.append_assoc, List.takeWhile_append_dropWhile]
      · simpa [List.isEmpty_iff] using hemp
      · intro c hc
        have := List.mem_takeWhile_imp hc
        simpa using this
      · cases hd : r.dropWhile fun c => !isSpace c with
        | nil => exact Or.inl rfl
        | cons d ds =>
          refine Or.inr ⟨d, ds, rfl, ?_⟩
          have := dropWhile_head_false hd
          simpa using this

theorem matchIdAt_rest_lt {cs cap rest : List Char}
    (h : matchIdAt cs = some (cap, rest)) : rest.length < cs.length := by
  obtain ⟨lit, hlit, hcs, hcap, -, -⟩ := matchIdAt_some h
  have hl : 0 < lit.length := by
    simp only [idLits, List.mem_cons, List.not_mem_nil, or_false] at hlit
    rcases hlit with h1 | h1 | h1 <;> subst h1 <;> decide
  have hc : 0 < cap.length := List.length_pos.mpr hcap
  rw [hcs]
  simp only [List.length_append]
  omega

theorem scanIdCaptures_sound :
    ∀ (fuel : Nat) (cs cap : List Char), cap ∈ scanIdCaptures fuel cs →
      ∃ a lit b, lit ∈ idLits ∧ cs = a ++ lit ++ cap ++ b ∧ cap ≠ [] ∧
        (∀ c ∈ cap, isSpace c = false) ∧
        (b = [] ∨ ∃ d ds, b = d :: ds ∧ isSpace d = true) := by
  intro fuel
  induction fuel with
  | zero => intro cs cap h; simp [scanIdCaptures] at h
  | succ n ih =>
    intro cs cap h
    cases cs with
    | nil => simp [scanIdCaptures] at h
    | cons c cs' =>
      rcases hm : matchIdAt (c :: cs') with _ | ⟨cap0, rest⟩
      · rw [scanIdCaptures, hm] at h
        obtain ⟨a, lit, b, hlit, hdec, hne, hsp, hb⟩ := ih cs' cap h
        exact ⟨c :: a, lit, b, hlit, by simp [hdec], hne, hsp, hb⟩
      · rw [scanIdCaptures, hm] at h
        rcases List.mem_cons.mp h with hcap | hcap
        · subst hcap
          obtain ⟨lit, hlit, hdec, hne, hsp, hr⟩ := matchIdAt_some hm
          exact ⟨[], lit, rest, hlit, by simpa using hdec, hne, hsp, hr⟩
        · obtain ⟨a, lit, b, hlit, hdec, hne, hsp, hb⟩ := ih rest cap hcap
          obtain ⟨lit0, hlit0, hdec0, hne0, hsp0, hr0⟩ := matchIdAt_some hm
          refine ⟨lit0 ++ cap0 ++ a, lit, b, hlit, ?_, hne, hsp, hb⟩
          rw [hdec0, hdec]
          simp [List.append_assoc]

theorem scanIdCaptures_eq_nil :
    ∀ (fuel : Nat) (cs : List Char),
      (∀ i, matchIdAt (cs.drop i) = none) → scanIdCaptures fuel cs = [] := by
  intro fuel
  induction fuel with
  | zero => intro cs _; rfl
  | succ n ih =>
    intro cs h
    cases cs with
    | nil => rfl
    | cons c cs' =>
      have h0 := h 0
      rw [List.drop_zero] at h0
      rw [scanIdCaptures, h0]
      exact ih cs' fun i => by simpa using h (i + 1)

theorem decideNoMatch_spec {s : String} (h : decideNoMatch s = true) :
    ∀ i, matchIdAt (s.toList.drop i) = none := by
  intro i
  by_cases hi : i < s.toList.length + 1
  · have := List.all_eq_true.mp h i (List.mem_range.mpr hi)
    exact Option.isNone_iff_eq_none.mp this
  · have hlen : s.toList.length ≤ i := by omega
    rw [List.drop_eq_nil_of_le hlen]
    rfl

/-! ## C10: empty identifier when the pattern matches nowhere -/

/-- C10: for a URL classified `Regular`, `Short` or `Embed` whose
string contains no match of the id-extraction pattern,
`YouTubeURL::get_id` returns `Ok("")` rather than an error. -/
theorem get_id_empty_when_no_match (u : Url) (k : YouTubeURLKind)
    (_hk : YouTubeURL.get_type u = .ok k) (hki : k ≠ .Invalid)
    (h : decideNoMatch u.full = true) :
    YouTubeURL.get_id u k = .ok "" := by
  have hscan : idCaptures u.full.toList = [] :=
    scanIdCaptures_eq_nil _ _ (decideNoMatch_spec h)
  cases k with
  | Invalid => exact absurd rfl hki
  | Short =>
    show Except.ok (String.mk ((idCaptures u.full.toList).getLast?.getD [])) = .ok ""
    rw [hscan]; rfl
  | Embed =>
    show Except.ok (String.mk ((idCaptures u.full.toList).getLast?.getD [])) = .ok ""
    rw [hscan]; rfl
  | Regular =>
    show Except.ok (String.mk ((idCaptures u.full.toList).getLast?.getD [])) = .ok ""
    rw [hscan]; rfl

/-- Witness for C10: `https://www.youtube.com/watch` (no `?v=`) is
classified `Regular`, the pattern matches nowhere, and the extracted
identifier is empty. -/
theorem get_id_empty_when_no_match_witness :
    YouTubeURL.get_id ⟨"https://www.youtube.com/watch", "/watch", none⟩ .Regular = .ok "" :=
  get_id_empty_when_no_match ⟨"https://www.youtube.com/watch", "/watch", none⟩ .Regular
    rfl (by decide) (by decide)

/-! ## C2: what get_id actually extracts -/

theorem get_id_nonInvalid {u : Url} {k : YouTubeURLKind} (hk : k ≠ .Invalid) :
    YouTubeURL.get_id u k =
      .ok (String.mk ((idCaptures u.full.toList).getLast?.getD [])) := by
  cases k with
  | Invalid => exact absurd rfl hk
  | Short => rfl
  | Embed => rfl
  | Regular => rfl

theorem getLastD_mem : ∀ (l : List (List Char)), l ≠ [] → l.getLast?.getD [] ∈ l
  | [x], _ => by simp
  | x :: y :: t, _ => by
    rw [List.getLast?_cons_cons]
    exact List.mem_cons_of_mem x (getLastD_mem (y :: t) (by simp))

/-- C2 counterexample: on
`https://www.youtube.com/watch?v=abcdefghijk&t=10` (kind `Regular`)
the `v` query parameter is `abcdefghijk`, but `get_id` returns the
greedy capture `abcdefghijk&t=10`, so the extracted identifier is not
the value of the `v` query parameter. -/
theorem get_id_not_v_param_counterexample :
    YouTubeURL.get_type
        ⟨"https://www.youtube.com/watch?v=abcdefghijk&t=10", "/watch",
          some "v=abcdefghijk&t=10"⟩ = .ok .Regular ∧
    vQueryParam
        ⟨"https://www.youtube.com/watch?v=abcdefghijk&t=10", "/watch",
          some "v=abcdefghijk&t=10"⟩ = some "abcdefghijk" ∧
    YouTubeURL.get_id
        ⟨"https://www.youtube.com/watch?v=abcdefghijk&t=10", "/watch",
          some "v=abcdefghijk&t=10"⟩ .Regular = .ok "abcdefghijk&t=10" ∧
    ("abcdefghijk&t=10" : String) ≠ "abcdefghijk" :=
  ⟨rfl, rfl, rfl, by decide⟩

/-- C2 (amended): for kind `Invalid`, `get_id` returns
`Ok("invalid")`; for the other kinds it returns `Ok(r)` where `r` is
the capture of the last match of the id pattern — a maximal nonempty
run of non-whitespace characters immediately following an occurrence
of `shorts/`, `embed/` or `watch?v=` in the URL string (which may
extend past one path segment or query parameter) — or the empty
string when the pattern matches nowhere. -/
theorem get_id_characterization (u : Url) (k : YouTubeURLKind) :
    (k = .Invalid → YouTubeURL.get_id u k = .ok "invalid") ∧
    (k ≠ .Invalid → ∀ r : String, YouTubeURL.get_id u k = .ok r →
      (idCaptures u.full.toList = [] ∧ r = "") ∨
      ∃ a lit b, lit ∈ idLits ∧
        u.full.toList = a ++ lit ++ r.toList ++ b ∧ r.toList ≠ [] ∧
        (∀ c ∈ r.toList, isSpace c = false) ∧
        (b = [] ∨ ∃ d ds, b = d :: ds ∧ isSpace d = true)) := by
  constructor
  · rintro rfl; rfl
  · intro hk r hr
    rw [get_id_nonInvalid hk] at hr
    injection hr with h
    cases hcap : idCaptures u.full.toList with
    | nil =>
      refine Or.inl ⟨rfl, ?_⟩
      rw [← h, hcap]
      rfl
    | cons c0 l0 =>
      have hne : idCaptures u.full.toList ≠ [] := by rw [hcap]; simp
      have hmem : (idCaptures u.full.toList).getLast?.getD [] ∈ idCaptures u.full.toList :=
        getLastD_mem _ hne
      obtain ⟨a, lit, b, hlit, hdec, hcne, hsp, hb⟩ :=
        scanIdCaptures_sound u.full.toList.length u.full.toList _
          (by simpa [idCaptures] using hmem)
      have hrt : r.toList = (idCaptures u.full.toList).getLast?.getD [] := by
        rw [← h]
        rfl
      refine Or.inr ⟨a, lit, b, hlit, ?_, ?_, ?_, hb⟩
      · rw [hrt]; exact hdec
      · rw [hrt]; exact hcne
      · rw [hrt]; exact hsp

/-- Witness for C2 (amended): on the shorts URL of the repository's
own test vector, the extracted identifier `3rLN_-VNcfs` is a capture
following `shorts/` in the URL string. -/
theorem get_id_characterization_witness :
    (idCaptures ("https://www.youtube.com/shorts/3rLN_-VNcfs" : String).toList = [] ∧
      ("3rLN_-VNcfs" : String) = "") ∨
    ∃ a lit b, lit ∈ idLits ∧
      ("https://www.youtube.com/shorts/3rLN_-VNcfs" : String).toList =
        a ++ lit ++ ("3rLN_-VNcfs" : String).toList ++ b ∧
      ("3rLN_-VNcfs" : String).toList ≠ [] ∧
      (∀ c ∈ ("3rLN_-VNcfs" : String).toList, isSpace c = false) ∧
      (b = [] ∨ ∃ d ds, b = d :: ds ∧ isSpace d = true) :=
  (get_id_characterization
      ⟨"https://www.youtube.com/shorts/3rLN_-VNcfs", "/shorts/3rLN_-VNcfs", none⟩
      .Short).2 (by decide) "3rLN_-VNcfs" rfl

/-! ## C3: when new accepts and rejects -/

/-- C3: `YouTubeURL::new` returns an error exactly when the URL
string fails the broad validation pattern or the URL is classified
`Invalid`; in every other case it returns `Ok` with the constructed
`YouTubeURL`. -/
theorem new_error_iff (u : Url) :
    ((∃ e, YouTubeURL.new u = .error e) ↔
      broadPatternMatch u.full = false ∨ YouTubeURL.get_type u = .ok .Invalid) ∧
    (broadPatternMatch u.full = true → YouTubeURL.get_type u ≠ .ok .Invalid →
      ∃ t i, YouTubeURL.get_type u = .ok t ∧ YouTubeURL.get_id u t = .ok i ∧
        YouTubeURL.new u = .ok ⟨u, t, i⟩) := by
  cases hk : kindOfPath u.path <;> cases hb : broadPatternMatch u.full <;>
    simp [YouTubeURL.new, YouTubeURL.get_type, YouTubeURL.get_id,
      YouTubeURL.validate, hk, hb]

/-- Witness for C3: the repository's own regular test URL passes the
broad pattern, is not `Invalid`, and `new` constructs the value. -/
theorem new_error_iff_witness :
    ∃ t i,
      YouTubeURL.get_type
          ⟨"https://www.youtube.com/watch?v=yPvoKz6tyJs", "/watch", some "v=yPvoKz6tyJs"⟩ =
        .ok t ∧
      YouTubeURL.get_id
          ⟨"https://www.youtube.com/watch?v=yPvoKz6tyJs", "/watch", some "v=yPvoKz6tyJs"⟩ t =
        .ok i ∧
      YouTubeURL.new
          ⟨"https://www.youtube.com/watch?v=yPvoKz6tyJs", "/watch", some "v=yPvoKz6tyJs"⟩ =
        .ok ⟨⟨"https://www.youtube.com/watch?v=yPvoKz6tyJs", "/watch", some "v=yPvoKz6tyJs"⟩, t, i⟩ :=
  (new_error_iff
      ⟨"https://www.youtube.com/watch?v=yPvoKz6tyJs", "/watch", some "v=yPvoKz6tyJs"⟩).2
    rfl (fun hcon => absurd (Except.ok.inj hcon) (by decide))

/-! ## C4: which error kind reaches the caller -/

/-- C4 counterexample: `https://youtube.com/v/abcdefghijk` matches
the broad pattern but is classified `Invalid`; `new` rejects it with
an error of kind `InvalidURL`, not `InvalidURLType`. -/
theorem new_error_kind_counterexample :
    YouTubeURL.get_type ⟨"https://youtube.com/v/abcdefghijk", "/v/abcdefghijk", none⟩ =
      .ok .Invalid ∧
    broadPatternMatch "https://youtube.com/v/abcdefghijk" = true ∧
    ∃ e, YouTubeURL.new ⟨"https://youtube.com/v/abcdefghijk", "/v/abcdefghijk", none⟩ =
        .error e ∧ e.kind = .InvalidURL ∧ e.kind ≠ .InvalidURLType :=
  ⟨rfl, rfl,
    ⟨⟨.InvalidURL,
        "error: Error \x7b kind: InvalidURLType, value: \"bad type: Invalid\n\" \x7d"⟩,
      rfl, rfl, by decide⟩⟩

/-- C4 (amended): every error returned by `new` to its caller has
kind `InvalidURL`; the two failure causes are distinguished only
inside `validate` — whose error carries `InvalidURL` for a broad
pattern failure and `InvalidURLType` for a
recognized-but-unsupported shape — and in the message text `new`
embeds. -/
theorem new_error_kind_amended (u : Url) (y : YouTubeURL) :
    (∀ e, YouTubeURL.new u = .error e → e.kind = .InvalidURL) ∧
    (broadPatternMatch y.url.full = false →
      ∃ e, y.validate = .error e ∧ e.kind = .InvalidURL) ∧
    (broadPatternMatch y.url.full = true → y.type = .Invalid →
      ∃ e, y.validate = .error e ∧ e.kind = .InvalidURLType) := by
  refine ⟨?_, ?_, ?_⟩
  · intro e he
    cases hk : kindOfPath u.path <;> cases hb : broadPatternMatch u.full <;>
      simp [YouTubeURL.new, YouTubeURL.get_type, YouTubeURL.get_id,
        YouTubeURL.validate, hk, hb] at he <;>
      simp [← he]
  · intro hb
    refine ⟨⟨.InvalidURL, "bad url: " ++ y.url.full⟩, ?_, rfl⟩
    simp [YouTubeURL.validate, hb]
  · intro hb ht
    refine ⟨⟨.InvalidURLType, "bad type: " ++ y.type.display⟩, ?_, rfl⟩
    simp [YouTubeURL.validate, hb, ht]

/-- Witness for C4 (amended): on the Invalid-shape URL, `validate`
itself reports `InvalidURLType`. -/
theorem new_error_kind_amended_witness :
    ∃ e, YouTubeURL.validate
        ⟨⟨"https://youtube.com/v/abcdefghijk", "/v/abcdefghijk", none⟩, .Invalid, "invalid"⟩ =
          .error e ∧ e.kind = .InvalidURLType :=
  (new_error_kind_amended
      ⟨"https://youtube.com/v/abcdefghijk", "/v/abcdefghijk", none⟩
      ⟨⟨"https://youtube.com/v/abcdefghijk", "/v/abcdefghijk", none⟩, .Invalid, "invalid"⟩).2.2
    rfl rfl

/-! ## C6: the MP3 gate of cdn_download -/

/-- C6: `cdn_download` persists the fetched bytes to
`mp3/<id>.mp3` only when they verify as MP3; when verification fails
nothing is written and the operation is rejected with an error. -/
theorem cdn_download_mp3_gate (env : Env) (sp yid : String) :
    (∀ p bs, Event.fsWrite p bs ∈ (cdn_download env sp yid).2 →
      env.is_mp3 (env.body sp) = true ∧ bs = env.body sp ∧
        p = "mp3/" ++ yid ++ ".mp3") ∧
    (env.is_mp3 (env.body sp) = false →
      (cdn_download env sp yid).1 = .err "downloaded content is not an mp3 file" ∧
      ∀ p bs, Event.fsWrite p bs ∉ (cdn_download env sp yid).2) ∧
    (env.is_mp3 (env.body sp) = true →
      (cdn_download env sp yid).1 = .ok ∧
      Event.fsWrite ("mp3/" ++ yid ++ ".mp3") (env.body sp) ∈
        (cdn_download env sp yid).2) := by
  refine ⟨?_, ?_, ?_⟩
  · intro p bs hmem
    cases hmp : env.is_mp3 (env.body sp) with
    | false => simp [cdn_download, hmp] at hmem
    | true =>
      simp [cdn_download, hmp] at hmem
      exact ⟨rfl, hmem.2, hmem.1⟩
  · intro hm
    simp [cdn_download, hm]
  · intro hm
    simp [cdn_download, hm]

/-- Witness for C6: bytes that do not sniff as MP3 are rejected and
no file write is performed. -/
theorem cdn_download_mp3_gate_witness :
    (cdn_download
        ⟨[], .null, .null, .null, .null, fun _ => [1, 2, 3],
          fun bs => bs.take 3 == [73, 68, 51]⟩ "cdn/a.mp3" "abc").1 =
      .err "downloaded content is not an mp3 file" ∧
    ∀ p bs, Event.fsWrite p bs ∉
      (cdn_download
        ⟨[], .null, .null, .null, .null, fun _ => [1, 2, 3],
          fun bs => bs.take 3 == [73, 68, 51]⟩ "cdn/a.mp3" "abc").2 :=
  (cdn_download_mp3_gate
      ⟨[], .null, .null, .null, .null, fun _ => [1, 2, 3],
        fun bs => bs.take 3 == [73, 68, 51]⟩ "cdn/a.mp3" "abc").2.1 rfl

/-! ## C7: skipping when the local file exists -/

/-- C7 counterexample: on a URL whose extracted identifier is
`abcdefghijk` and whose local file `mp3/abcdefghijk.mp3` exists, but
which fails validation (`example.com` host), `download` does not
return `Ok`: the `unwrap` on `YouTubeURL::new` panics before the
local-file check. -/
theorem download_skip_counterexample :
    YouTubeURL.get_type ⟨"https://example.com/watch?v=abcdefghijk", "/watch",
        some "v=abcdefghijk"⟩ = .ok .Regular ∧
    YouTubeURL.get_id ⟨"https://example.com/watch?v=abcdefghijk", "/watch",
        some "v=abcdefghijk"⟩ .Regular = .ok "abcdefghijk" ∧
    "mp3/abcdefghijk.mp3" ∈
      (⟨["mp3/abcdefghijk.mp3"], .null, .null, .null, .null, fun _ => [],
        fun _ => false⟩ : Env).fs ∧
    (download
        ⟨["mp3/abcdefghijk.mp3"], .null, .null, .null, .null, fun _ => [],
          fun _ => false⟩
        ⟨"https://example.com/watch?v=abcdefghijk", "/watch", some "v=abcdefghijk"⟩
        "local" .Kbps128).1 ≠ .ok :=
  ⟨rfl, rfl, by decide, by decide⟩

/-- C7 (amended): when the URL is accepted by `YouTubeURL::new` and
the local file `mp3/<id>.mp3` already exists, `download` returns `Ok`
immediately and performs no effect at all: no remote request and no
filesystem write. -/
theorem download_skip_when_local (env : Env) (u : Url) (dt : String) (q : BitRate)
    (y : YouTubeURL) (hnew : YouTubeURL.new u = .ok y)
    (hfile : ("mp3/" ++ y.id ++ ".mp3") ∈ env.fs) :
    download env u dt q = (.ok, []) := by
  simp [download, hnew, hfile]

/-- Witness for C7 (amended): the regular test URL with its file
already present is skipped. -/
theorem download_skip_when_local_witness :
    download
      ⟨["mp3/yPvoKz6tyJs.mp3"], .null, .null, .null, .null, fun _ => [], fun _ => false⟩
      ⟨"https://www.youtube.com/watch?v=yPvoKz6tyJs", "/watch", some "v=yPvoKz6tyJs"⟩
      "local" .Kbps128 = (.ok, []) :=
  download_skip_when_local _ _ _ _
    ⟨⟨"https://www.youtube.com/watch?v=yPvoKz6tyJs", "/watch", some "v=yPvoKz6tyJs"⟩,
      .Regular, "yPvoKz6tyJs"⟩
    rfl (by decide)

/-! ## C5: the orchestration order -/

/-- C5: with a valid URL and no pre-existing local file, a
success-reporting existence check leads to a direct CDN download of
the returned `server_path` with no metadata, conversion or insert
request; a failure-reporting existence check leads to the metadata
request, the conversion request, the insert registration and finally
the download from the returned location, in exactly that order. -/
theorem download_orchestration (env : Env) (u : Url) (dt : String) (q : BitRate)
    (y : YouTubeURL) (hnew : YouTubeURL.new u = .ok y)
    (hnofile : ("mp3/" ++ y.id ++ ".mp3") ∉ env.fs) :
    ((env.checkdb_res.get "success").bind Json.asBool = some true →
      ∀ cd, parseCheckDatabaseExist env.checkdb_res = some cd →
        download env u dt q =
          (if env.is_mp3 (env.body cd.data.server_path) then DLResult.ok
           else DLResult.err "downloaded content is not an mp3 file",
           [Event.reqCheckDatabase y.id q, Event.reqCdnGet cd.data.server_path] ++
             (if env.is_mp3 (env.body cd.data.server_path) then
                [Event.fsWrite ("mp3/" ++ y.id ++ ".mp3") (env.body cd.data.server_path)]
              else []))) ∧
    ((env.checkdb_res.get "success").bind Json.asBool = some false →
      ∀ ne, parseCheckDatabaseNoExist env.checkdb_res = some ne →
      (env.getvd_res.get "success").bind Json.asBool = some true →
      ∀ gvd, parseGetVideoData env.getvd_res = some gvd →
      (env.dv_res.get "success").bind Json.asBool = some true →
      ∀ dv, parseDownloadVideoData env.dv_res = some dv →
      (env.ins_res.get "success").bind Json.asBool = some true →
      ∀ ins, parseInsertToDatabaseData env.ins_res = some ins →
        download env u dt q =
          (if env.is_mp3 (env.body dv.download_link) then DLResult.ok
           else DLResult.err ("error: downloaded content is not an mp3 file"),
           [Event.reqCheckDatabase y.id q,
            Event.reqGetVideoData y.url.full,
            Event.reqDownloadVideo y.url.full gvd.title q,
            Event.reqInsertToDatabase dv.download_link gvd.title y.id q,
            Event.reqCdnGet dv.download_link] ++
             (if env.is_mp3 (env.body dv.download_link) then
                [Event.fsWrite ("mp3/" ++ y.id ++ ".mp3") (env.body dv.download_link)]
              else []))) := by
  constructor
  · intro hsucc cd hcd
    simp only [download, hnew]
    rw [if_neg hnofile]
    simp only [hsucc, hcd, cdn_download]
    by_cases hm : env.is_mp3 (env.body cd.data.server_path) = true <;> simp [hm]
  · intro hsucc ne hne hgs gvd hgvd hds dv hdv his ins hins
    simp only [download, hnew]
    rw [if_neg hnofile]
    simp only [hsucc, hne, hgs, hgvd, hds, hdv, his, hins, cdn_download]
    by_cases hm : env.is_mp3 (env.body dv.download_link) = true <;> simp [hm]

/-- Witness for C5: a cached existence-check response leads to the
check-database request followed directly by the CDN download and the
local write, with no metadata, conversion or insert request. -/
theorem download_orchestration_witness :
    download
      ⟨[],
        .obj [("success", .bool true),
              ("data", .obj [("id", .num 1), ("quality", .str "128"),
                             ("server_path", .str "cdn/yPvoKz6tyJs.mp3"),
                             ("title", .str "t"), ("youtube_id", .str "yPvoKz6tyJs")])],
        .null, .null, .null,
        fun _ => [73, 68, 51, 4],
        fun bs => bs.take 3 == [73, 68, 51]⟩
      ⟨"https://www.youtube.com/watch?v=yPvoKz6tyJs", "/watch", some "v=yPvoKz6tyJs"⟩
      "local" .Kbps128 =
      (if (fun bs => bs.take 3 == [73, 68, 51]) ((fun _ => [73, 68, 51, 4]) "cdn/yPvoKz6tyJs.mp3")
         then DLResult.ok else DLResult.err "downloaded content is not an mp3 file",
       [Event.reqCheckDatabase "yPvoKz6tyJs" .Kbps128,
        Event.reqCdnGet "cdn/yPvoKz6tyJs.mp3"] ++
         (if (fun bs => bs.take 3 == [73, 68, 51]) ((fun _ => [73, 68, 51, 4]) "cdn/yPvoKz6tyJs.mp3")
            then [Event.fsWrite "mp3/yPvoKz6tyJs.mp3" [73, 68, 51, 4]] else [])) :=
  (download_orchestration
      ⟨[],
        .obj [("success", .bool true),
              ("data", .obj [("id", .num 1), ("quality", .str "128"),
                             ("server_path", .str "cdn/yPvoKz6tyJs.mp3"),
                             ("title", .str "t"), ("youtube_id", .str "yPvoKz6tyJs")])],
        .null, .null, .null,
        fun _ => [73, 68, 51, 4],
        fun bs => bs.take 3 == [73, 68, 51]⟩
      ⟨"https://www.youtube.com/watch?v=yPvoKz6tyJs", "/watch", some "v=yPvoKz6tyJs"⟩
      "local" .Kbps128
      ⟨⟨"https://www.youtube.com/watch?v=yPvoKz6tyJs", "/watch", some "v=yPvoKz6tyJs"⟩,
        .Regular, "yPvoKz6tyJs"⟩
      rfl (by decide)).1 rfl
    ⟨⟨1, "128", "cdn/yPvoKz6tyJs.mp3", "t", "yPvoKz6tyJs"⟩, true⟩ rfl

end Photon
